import Mathlib

/-!
Verification development for the Bravo repository (Browser-Agent and
Voice-Agent front ends of a mention-driven dispatch loop).

The Browser-Agent orchestration loop (`src/Browser-Agent/main.py`, `main`,
lines 115-179) is embedded as a pure function from the behaviour of its
external collaborators in one iteration (`Env`) to the trace of observable
effects it performs (`Event`) plus the updated step counter.  The
Voice-Agent pieces (`src/Voice-Agent/main.py`, `src/Voice-Agent/utils/
coral_agent.py`) are embedded below as `pushHistory`, `call_coral_agent`
and `run_voice_session`.
-/

namespace Bravo

/-- Python truthiness of an optional string: `None` and `""` are falsy,
every non-empty string is truthy (used for `message.get(...)` results). -/
def truthy : Option String → Bool
  | none => false
  | some s => !s.isEmpty

/-- Is the first character list a prefix of the second? -/
def charsPrefix : List Char → List Char → Bool
  | [], _ => true
  | _ :: _, [] => false
  | n :: ns, h :: hs => n == h && charsPrefix ns hs

/-- Does the first character list occur contiguously in the second? -/
def charsInfix (needle : List Char) : List Char → Bool
  | [] => charsPrefix needle []
  | h :: hs => charsPrefix needle (h :: hs) || charsInfix needle hs

/-- Substring test: Python's `needle in hay` for strings, as contiguous
containment of the character sequences. -/
def strContains (hay needle : String) : Bool :=
  charsInfix needle.toList hay.toList

/-- `SLEEP_INTERVAL = 1` (src/Browser-Agent/main.py line 26). -/
def SLEEP_INTERVAL : Nat := 1

/-- `ERROR_RETRY_INTERVAL = 5` (src/Browser-Agent/main.py line 27).
Defined in the source but never referenced again. -/
def ERROR_RETRY_INTERVAL : Nat := 5

/-- The hub's no-new-messages sentinel text checked on line 125. -/
def NO_NEW_MESSAGES : String := "No new messages"

/-- A raw mention payload: the three fields the loop extracts with
`message.get(...)` (absent fields read as `none`, like Python's `None`). -/
structure Message where
  threadId : Option String
  senderId : Option String
  content : Option String
  deriving Repr, DecidableEq

/-- The value of `wait_for_mentions` together with its parse:
`rawStr = some s` when the response is a Python `str` `s` (line 125's
`isinstance(mentions_response, str)`), and `msgs` is the value of
`parse_mentions_response(mentions_response)` (line 129).  Modelled from
the spec: `parse_mentions_response` lives in `utils/coral_config.py`,
which is not part of the sources, so the parse result is supplied as
data rather than recomputed. -/
structure PollOutcome where
  rawStr : Option String
  msgs : List Message
  deriving Repr, DecidableEq

/-- One iteration's external behaviour: each awaited collaborator either
returns a value or raises an exception (`Except.error` with the message).
`resources` covers `client.get_resources` / `mcp_resources_details`
(lines 118-119), `poll` covers `wait_for_mentions` (line 120),
`dispatchR` covers `process_agent_query` (line 153; its returned value is
already stringified, as line 164 does with `str(...)`), and `sendErr`
is `some e` when `send_message` raises `e` (lines 141, 166). -/
structure Env where
  resources : Except String Unit
  poll : Except String PollOutcome
  dispatchR : Except String String
  sendErr : Option String
  deriving Repr

/-- Observable effects of one loop iteration. -/
inductive Event where
  | dispatchCall (query : Option String) (step : Nat)
  | sendMessage (threadId : Option String) (content : String)
      (mentions : List (Option String))
  | sleep (seconds : Nat)
  | logError (msg : String)
  deriving Repr, DecidableEq

/-- Result of one iteration: its effect trace, the step counter after it,
and `caught = some e` when the `except Exception` handler on line 177 ran
with exception `e`. -/
structure IterResult where
  trace : List Event
  step : Nat
  caught : Option String
  deriving Repr, DecidableEq

/-- The `except Exception` handler, lines 177-179: the events performed so
far, then `logger.error` — and nothing else: no sleep, no reply, and the
loop header is re-entered immediately. -/
def catchTrace (pre : List Event) (e : String) (step : Nat) : IterResult :=
  ⟨pre ++ [Event.logError e], step, some e⟩

/-- Line 125's condition: `isinstance(mentions_response, str) and
"No new messages" in mentions_response`. -/
def isNoNewMessages : Option String → Bool
  | some s => strContains s NO_NEW_MESSAGES
  | none => false

/-- One iteration of the `while True` loop, src/Browser-Agent/main.py
lines 115-179, as a function of the collaborators' behaviour `env` and
the current `step` counter:

* lines 118-122: `get_resources` and `wait_for_mentions`; an exception
  from either goes to the handler;
* lines 125-127: the no-new-messages sentinel sleeps `SLEEP_INTERVAL`
  and continues;
* lines 130-132: an empty parse or a falsy `messages[0].get('threadId')`
  sleeps `SLEEP_INTERVAL` and continues, with no send at all;
* lines 134-147: field extraction; `if not all([thread_id, sender_id,
  content])` sends the literal "Error: Missing message fields" reply to
  the thread mentioning the (possibly absent) sender, sleeps, continues;
* lines 153-172: dispatch of the content, `step += 1` on return, then
  the answer is sent to the thread mentioning the sender and the loop
  sleeps `SLEEP_INTERVAL`. -/
def runIteration (env : Env) (step : Nat) : IterResult :=
  match env.resources with
  | .error e => catchTrace [] e step
  | .ok _ =>
    match env.poll with
    | .error e => catchTrace [] e step
    | .ok out =>
      if isNoNewMessages out.rawStr then
        ⟨[Event.sleep SLEEP_INTERVAL], step, none⟩
      else
        match out.msgs with
        | [] => ⟨[Event.sleep SLEEP_INTERVAL], step, none⟩
        | message :: _ =>
          if !truthy message.threadId then
            ⟨[Event.sleep SLEEP_INTERVAL], step, none⟩
          else
            let thread_id := message.threadId
            let sender_id := message.senderId
            let content := message.content
            if !(truthy thread_id && (truthy sender_id && truthy content)) then
              match env.sendErr with
              | some e =>
                  catchTrace
                    [Event.sendMessage thread_id "Error: Missing message fields"
                      [sender_id]] e step
              | none =>
                  ⟨[Event.sendMessage thread_id "Error: Missing message fields"
                      [sender_id],
                    Event.sleep SLEEP_INTERVAL], step, none⟩
            else
              match env.dispatchR with
              | .error e => catchTrace [Event.dispatchCall content step] e step
              | .ok answer =>
                match env.sendErr with
                | some e =>
                    catchTrace
                      [Event.dispatchCall content step,
                       Event.sendMessage thread_id answer [sender_id]] e (step + 1)
                | none =>
                    ⟨[Event.dispatchCall content step,
                      Event.sendMessage thread_id answer [sender_id],
                      Event.sleep SLEEP_INTERVAL], step + 1, none⟩

/-- `step = 0` at line 113. -/
def initialStep : Nat := 0

/-- The infinite loop, truncated to a finite schedule of iteration
behaviours: total trace and final step counter. -/
def runLoop : List Env → Nat → List Event × Nat
  | [], step => ([], step)
  | env :: rest, step =>
    let r := runIteration env step
    let (t, s) := runLoop rest r.step
    (r.trace ++ t, s)

/-- Is the event a `send_message` call? -/
def Event.isSend : Event → Bool
  | .sendMessage _ _ _ => true
  | _ => false

/-- Is the event a dispatch (`process_agent_query`) call? -/
def Event.isDispatch : Event → Bool
  | .dispatchCall _ _ => true
  | _ => false

/-- Is the event a sleep? -/
def Event.isSleep : Event → Bool
  | .sleep _ => true
  | _ => false

/-- Number of `send_message` calls in a trace. -/
def countSends (t : List Event) : Nat := (t.filter Event.isSend).length

/-- Number of dispatch calls in a trace. -/
def countDispatches (t : List Event) : Nat := (t.filter Event.isDispatch).length

/-- Number of sleeps in a trace. -/
def countSleeps (t : List Event) : Nat := (t.filter Event.isSleep).length

/-! Voice-Agent embedding. -/

/-- `collections.deque(maxlen=3)` append (src/Voice-Agent/utils/
coral_agent.py line 21 creates the deque; appends happen in
src/Voice-Agent/main.py line 52): the new element goes to the right and,
past capacity 3, the leftmost (oldest) element is discarded. -/
def pushHistory (l : List String) (x : String) : List String :=
  let l2 := l ++ [x]
  l2.drop (l2.length - 3)

/-- Python's `str.strip()`: drop whitespace from both ends (computable
character-list model). -/
def pyStrip (s : String) : String :=
  ⟨((s.toList.dropWhile Char.isWhitespace).reverse.dropWhile
      Char.isWhitespace).reverse⟩

/-- State of `ConversationManager` (src/Voice-Agent/main.py lines 17-21)
relevant to `call_coral_agent`: `coralAgentOk` models the line-25
`hasattr`/`isinstance` guard on `self.coral_agent`, `latest_transcript`
is the field updated by `update_transcript`, and `history` is
`self.coral_agent.history` (the capacity-3 deque). -/
structure CMState where
  coralAgentOk : Bool
  latest_transcript : Option String
  history : List String
  deriving Repr, DecidableEq

/-- The `input_text` argument of `call_coral_agent`: absent (`None`), a
plain string, or a dict from voice input whose `transcript` key may be
missing (line 29-30's `input_text.get("transcript", "")`). -/
inductive CoralInput where
  | noArg
  | text (s : String)
  | voiceDict (transcript : Option String)
  deriving Repr, DecidableEq

/-- Lines 28-30: normalize the argument — a dict is replaced by its
`transcript` value (defaulting to `""`). -/
def inputTextOf : CoralInput → Option String
  | .noArg => none
  | .text s => some s
  | .voiceDict tr => some (tr.getD "")

/-- Lines 32-39: choose the engine input.  `if input_text and
input_text.strip()` takes the stripped argument; `elif
self.latest_transcript and self.latest_transcript.strip()` falls back to
the stripped transcript; otherwise there is no valid input (`none`, which
`call_coral_agent` turns into the error-sentinel return).  A `none`
option and an empty string are both falsy in Python, so both read as the
empty string here. -/
def coralAgentInput (latest inputText : Option String) : Option String :=
  if !(inputText.getD "").isEmpty && !(pyStrip (inputText.getD "")).isEmpty then
    some (pyStrip (inputText.getD ""))
  else if !(latest.getD "").isEmpty && !(pyStrip (latest.getD "")).isEmpty then
    some (pyStrip (latest.getD ""))
  else
    none

/-- `ConversationManager.call_coral_agent` (src/Voice-Agent/main.py lines
23-56) as a pure function of the state, the argument, and the engine's
behaviour.  The engine (`self.coral_agent.agent_executor.ainvoke`) either
raises (`Except.error`) or returns a result dict whose `"output"` key may
be absent (`Except.ok (none | some output)`; line 51's
`result.get("output", "No response from CoralAgent")` applies the
default).  On success line 52 appends the engine input to the history
deque; on an exception line 54 returns an error string and the history is
untouched.  Returns the output string and the updated state. -/
def call_coral_agent (st : CMState) (inp : CoralInput)
    (engine : String → Except String (Option String)) : String × CMState :=
  if st.coralAgentOk = false then
    ("Error: CoralAgent not properly initialized", st)
  else
    match coralAgentInput st.latest_transcript (inputTextOf inp) with
    | none => ("Error: No valid input or transcript available", st)
    | some q =>
      match engine q with
      | .ok outputOpt =>
        (outputOpt.getD "No response from CoralAgent",
         { st with history := pushHistory st.history q })
      | .error e => ("Error in CoralAgent: " ++ e, st)

/-- How the race of `conversation.wait_for_session_end()` against the
120-second deadline in `run_voice_session` (src/Voice-Agent/main.py
lines 100-118) resolves: the provider reports the session end (with the
conversation id the call returned, possibly falsy), `asyncio.wait_for`
raises `TimeoutError`, the operator's SIGINT handler fires (it calls
`end_session` and raises `KeyboardInterrupt`, lines 92-98), or another
exception is raised. -/
inductive SessionWait where
  | ended (conversationId : Option String)
  | timedOutWait
  | interrupted
  | failed (e : String)
  deriving Repr, DecidableEq

/-- Outcome classification of a voice session. -/
inductive EndReason where
  | completed
  | timedOut
  | interruptedEnd
  | errored
  deriving Repr, DecidableEq

/-- Observable outcome of `run_voice_session`: how many times the
explicit `conversation.end_session()` command was issued (counting the
SIGINT handler's call), the end reason, and whether an exception escapes
to the caller. -/
structure VoiceResult where
  endSessionCalls : Nat
  reason : EndReason
  propagatesToCaller : Bool
  deriving Repr, DecidableEq

/-- The `timeout=120` argument on line 108 (the spec's 120-second voice
session deadline). -/
def VOICE_SESSION_TIMEOUT_SECONDS : Nat := 120

/-- `run_voice_session` (src/Voice-Agent/main.py lines 100-118) as a
function of how the awaited session wait resolves:

* normal end (lines 108-110): no explicit `end_session` call;
* `asyncio.TimeoutError` (lines 111-113): print, then `end_session`
  exactly once, return normally;
* `KeyboardInterrupt` (lines 114-115): the signal handler installed by
  `handle_interrupt` already called `end_session` once and raised; the
  `except KeyboardInterrupt: pass` swallows it, so control returns to
  the caller with no propagated exception;
* any other exception (lines 116-118): print, `end_session` once,
  return normally. -/
def run_voice_session : SessionWait → VoiceResult
  | .ended _ => ⟨0, .completed, false⟩
  | .timedOutWait => ⟨1, .timedOut, false⟩
  | .interrupted => ⟨1, .interruptedEnd, false⟩
  | .failed _ => ⟨1, .errored, false⟩

/-- C4: when the poll's response is exactly the hub's "No new messages"
sentinel string, the iteration performs no dispatch and no send, sleeps
exactly one `SLEEP_INTERVAL` (which is 1 second), and leaves the step
counter unchanged. -/
theorem sentinel_sleeps_one_interval (msgs : List Message)
    (d : Except String String) (se : Option String) (step : Nat) :
    SLEEP_INTERVAL = 1 ∧
    runIteration ⟨Except.ok (), Except.ok ⟨some NO_NEW_MESSAGES, msgs⟩, d, se⟩ step
      = ⟨[Event.sleep SLEEP_INTERVAL], step, none⟩ := by
  constructor
  · rfl
  · rfl

/-- C5: when the poll returns a batch `m :: rest`, the iteration behaves
exactly as it would on the single-message batch `[m]`: only the first
message of a batch is validated, dispatched and replied to; the rest of
the batch is not touched in that iteration. -/
theorem only_first_message_processed (res : Except String Unit)
    (raw : Option String) (m : Message) (rest : List Message)
    (d : Except String String) (se : Option String) (step : Nat) :
    runIteration ⟨res, Except.ok ⟨raw, m :: rest⟩, d, se⟩ step
      = runIteration ⟨res, Except.ok ⟨raw, [m]⟩, d, se⟩ step := by
  cases res <;> rfl

/-- C10: after the sentinel check fails, an empty parsed batch, or a lead
message whose `threadId` is absent or empty, is dropped silently: no send
of any kind (even when a senderId is present in the payload), no dispatch,
one `SLEEP_INTERVAL` sleep, step unchanged, and the loop re-polls. -/
theorem invalid_lead_dropped_silently (out : PollOutcome)
    (d : Except String String) (se : Option String) (step : Nat)
    (hraw : isNoNewMessages out.rawStr = false)
    (hmsg : out.msgs = [] ∨
      ∃ m rest, out.msgs = m :: rest ∧ truthy m.threadId = false) :
    runIteration ⟨Except.ok (), Except.ok out, d, se⟩ step
      = ⟨[Event.sleep SLEEP_INTERVAL], step, none⟩ := by
  obtain ⟨raw, msgs⟩ := out
  simp only [runIteration, hraw, Bool.false_eq_true, if_false]
  rcases hmsg with h | ⟨m, rest, h, ht⟩ <;> simp_all

/-- C10 witness: a batch whose lead message has a senderId and content but
no threadId is dropped with only a sleep. -/
theorem invalid_lead_dropped_silently_witness :
    runIteration
      ⟨Except.ok (),
       Except.ok ⟨none, [⟨none, some "a1", some "go to google"⟩]⟩,
       Except.ok "answer", none⟩ 7
      = ⟨[Event.sleep SLEEP_INTERVAL], 7, none⟩ :=
  invalid_lead_dropped_silently
    ⟨none, [⟨none, some "a1", some "go to google"⟩]⟩
    (Except.ok "answer") none 7 rfl
    (Or.inr ⟨⟨none, some "a1", some "go to google"⟩, [], rfl, rfl⟩)

/-- C2 counterexample: the claim fails for a message that is missing
`threadId` while `senderId` (here `"a1"`) is present and derivable: the
line-130 guard drops it with only a sleep, so no reply at all is sent
(rather than exactly one "missing fields" reply). -/
theorem missing_threadId_no_reply_cex :
    countSends (runIteration
      ⟨Except.ok (), Except.ok ⟨none, [⟨none, some "a1", some "hello"⟩]⟩,
       Except.ok "ans", none⟩ 0).trace = 0 ∧
    (runIteration
      ⟨Except.ok (), Except.ok ⟨none, [⟨none, some "a1", some "hello"⟩]⟩,
       Except.ok "ans", none⟩ 0).trace = [Event.sleep SLEEP_INTERVAL] := by
  exact ⟨rfl, rfl⟩

/-- C2 (amended): for every lead message whose `threadId` is present and
non-empty but whose `senderId` or `content` is missing/empty, exactly one
reply is sent, with the literal content "Error: Missing message fields",
addressed to the message's thread and mentioning the (possibly absent)
sender, and dispatch is never invoked; the step counter is unchanged. -/
theorem missing_fields_reply_amended (raw : Option String) (m : Message)
    (rest : List Message) (d : Except String String) (se : Option String)
    (step : Nat)
    (hraw : isNoNewMessages raw = false)
    (htid : truthy m.threadId = true)
    (hinv : (truthy m.senderId && truthy m.content) = false) :
    countSends (runIteration ⟨Except.ok (), Except.ok ⟨raw, m :: rest⟩, d, se⟩
        step).trace = 1 ∧
    Event.sendMessage m.threadId "Error: Missing message fields" [m.senderId]
      ∈ (runIteration ⟨Except.ok (), Except.ok ⟨raw, m :: rest⟩, d, se⟩
        step).trace ∧
    countDispatches (runIteration ⟨Except.ok (), Except.ok ⟨raw, m :: rest⟩,
        d, se⟩ step).trace = 0 ∧
    (runIteration ⟨Except.ok (), Except.ok ⟨raw, m :: rest⟩, d, se⟩
        step).step = step := by
  cases se <;>
    simp [runIteration, hraw, htid, hinv, catchTrace, countSends,
      countDispatches, Event.isSend, Event.isDispatch, List.filter]

/-- C2 witness: the spec's scenario — `{threadId:"t1", senderId:"a1"}`
with missing content — sends exactly one "Error: Missing message fields"
reply to thread "t1" mentioning "a1", with no dispatch. -/
theorem missing_fields_reply_amended_witness :
    countSends (runIteration ⟨Except.ok (),
        Except.ok ⟨none, [⟨some "t1", some "a1", none⟩]⟩,
        Except.ok "ans", none⟩ 0).trace = 1 ∧
    Event.sendMessage (some "t1") "Error: Missing message fields" [some "a1"]
      ∈ (runIteration ⟨Except.ok (),
        Except.ok ⟨none, [⟨some "t1", some "a1", none⟩]⟩,
        Except.ok "ans", none⟩ 0).trace ∧
    countDispatches (runIteration ⟨Except.ok (),
        Except.ok ⟨none, [⟨some "t1", some "a1", none⟩]⟩,
        Except.ok "ans", none⟩ 0).trace = 0 ∧
    (runIteration ⟨Except.ok (),
        Except.ok ⟨none, [⟨some "t1", some "a1", none⟩]⟩,
        Except.ok "ans", none⟩ 0).step = 0 :=
  missing_fields_reply_amended none ⟨some "t1", some "a1", none⟩ []
    (Except.ok "ans") none 0 rfl rfl rfl

/-- C1: every message that reaches the dispatch stage — its three fields
are present and non-empty — and whose dispatch returns (per the spec,
`process_agent_query` surfaces engine failures as a returned error value,
so `answer` covers both the real answer and a short error string) causes
`send_message` to be called exactly once, to the originating thread,
mentioning exactly the original sender, whether or not the send itself
then succeeds. -/
theorem reply_called_exactly_once (raw : Option String) (m : Message)
    (rest : List Message) (answer : String) (se : Option String) (step : Nat)
    (hraw : isNoNewMessages raw = false)
    (hvalid : (truthy m.threadId && (truthy m.senderId && truthy m.content))
      = true) :
    countSends (runIteration ⟨Except.ok (), Except.ok ⟨raw, m :: rest⟩,
        Except.ok answer, se⟩ step).trace = 1 ∧
    Event.sendMessage m.threadId answer [m.senderId]
      ∈ (runIteration ⟨Except.ok (), Except.ok ⟨raw, m :: rest⟩,
        Except.ok answer, se⟩ step).trace := by
  have htid : truthy m.threadId = true := by
    cases h : truthy m.threadId <;> simp_all
  cases se with
  | none =>
    have hrun : runIteration ⟨Except.ok (), Except.ok ⟨raw, m :: rest⟩,
        Except.ok answer, none⟩ step
        = ⟨[Event.dispatchCall m.content step,
            Event.sendMessage m.threadId answer [m.senderId],
            Event.sleep SLEEP_INTERVAL], step + 1, none⟩ := by
      simp [runIteration, hraw, htid, hvalid, catchTrace]
      simpa [htid] using hvalid
    rw [hrun]
    exact ⟨rfl, by simp⟩
  | some e =>
    have hrun : runIteration ⟨Except.ok (), Except.ok ⟨raw, m :: rest⟩,
        Except.ok answer, some e⟩ step
        = ⟨[Event.dispatchCall m.content step,
            Event.sendMessage m.threadId answer [m.senderId],
            Event.logError e], step + 1, some e⟩ := by
      simp [runIteration, hraw, htid, hvalid, catchTrace]
      simpa [htid] using hvalid
    rw [hrun]
    exact ⟨rfl, by simp⟩

/-- C1 witness: the spec's scenario — a well-formed message from "a1" in
thread "t1" whose dispatch answers "Loaded google.com" produces exactly
one `send_message("t1", "Loaded google.com", ["a1"])`. -/
theorem reply_called_exactly_once_witness :
    countSends (runIteration ⟨Except.ok (),
        Except.ok ⟨none, [⟨some "t1", some "a1", some "go to google"⟩]⟩,
        Except.ok "Loaded google.com", none⟩ 0).trace = 1 ∧
    Event.sendMessage (some "t1") "Loaded google.com" [some "a1"]
      ∈ (runIteration ⟨Except.ok (),
        Except.ok ⟨none, [⟨some "t1", some "a1", some "go to google"⟩]⟩,
        Except.ok "Loaded google.com", none⟩ 0).trace :=
  reply_called_exactly_once none ⟨some "t1", some "a1", some "go to google"⟩
    [] "Loaded google.com" none 0 rfl rfl

/-- Shape of an iteration's outcome, shared by the fault-handling and
step-counter analyses: the step counter is unchanged unless dispatch
returned a value (then it grew by exactly 1), and whenever the exception
handler ran, the result is `catchTrace pre e st` for a pre-trace that
contains no sleep. -/
theorem runIteration_shape (env : Env) (step : Nat) :
    ((runIteration env step).step = step ∨
      ((runIteration env step).step = step + 1 ∧
        ∃ a, env.dispatchR = Except.ok a)) ∧
    ((runIteration env step).caught = none ∨
      ∃ pre e st, runIteration env step = catchTrace pre e st ∧
        countSleeps pre = 0) := by
  obtain ⟨res0, poll0, d0, se0⟩ := env
  cases res0 with
  | error e => exact ⟨Or.inl rfl, Or.inr ⟨[], e, step, rfl, rfl⟩⟩
  | ok u =>
    cases poll0 with
    | error e => exact ⟨Or.inl rfl, Or.inr ⟨[], e, step, rfl, rfl⟩⟩
    | ok out =>
      obtain ⟨raw, msgs⟩ := out
      cases hr : isNoNewMessages raw with
      | true => refine ⟨Or.inl ?_, Or.inl ?_⟩ <;> simp [runIteration, hr]
      | false =>
        cases msgs with
        | nil => refine ⟨Or.inl ?_, Or.inl ?_⟩ <;> simp [runIteration, hr]
        | cons m rest =>
          cases ht : truthy m.threadId with
          | false => refine ⟨Or.inl ?_, Or.inl ?_⟩ <;> simp [runIteration, hr, ht]
          | true =>
            cases hsc : truthy m.senderId && truthy m.content with
            | false =>
              cases se0 with
              | some e =>
                refine ⟨Or.inl ?_,
                  Or.inr ⟨[Event.sendMessage m.threadId
                    "Error: Missing message fields" [m.senderId]], e, step,
                    ?_, rfl⟩⟩ <;>
                  simp [runIteration, hr, ht, hsc, catchTrace]
              | none =>
                refine ⟨Or.inl ?_, Or.inl ?_⟩ <;> simp [runIteration, hr, ht, hsc, catchTrace]
            | true =>
              cases d0 with
              | error e =>
                refine ⟨Or.inl ?_,
                  Or.inr ⟨[Event.dispatchCall m.content step], e, step,
                    ?_, rfl⟩⟩ <;>
                  simp [runIteration, hr, ht, hsc, catchTrace]
              | ok ans =>
                cases se0 with
                | some e =>
                  refine ⟨Or.inr ⟨?_, ans, rfl⟩,
                    Or.inr ⟨[Event.dispatchCall m.content step,
                      Event.sendMessage m.threadId ans [m.senderId]], e,
                      step + 1, ?_, rfl⟩⟩ <;>
                    simp [runIteration, hr, ht, hsc, catchTrace]
                | none =>
                  refine ⟨Or.inr ⟨?_, ans, rfl⟩, Or.inl ?_⟩ <;>
                    simp [runIteration, hr, ht, hsc, catchTrace]

/-- C3 counterexample: an iteration whose poll raises is caught by the
handler, but the loop does not sleep any backoff interval at all before
re-entering the loop header (the claim requires a fixed backoff sleep;
`ERROR_RETRY_INTERVAL` is defined in the source yet never used). -/
theorem exception_no_backoff_cex :
    (runIteration ⟨Except.ok (), Except.error "boom", Except.ok "x", none⟩
      0).caught = some "boom" ∧
    countSleeps (runIteration ⟨Except.ok (), Except.error "boom",
      Except.ok "x", none⟩ 0).trace = 0 :=
  ⟨rfl, rfl⟩

/-- C3 (amended): whenever an iteration raises in polling, validating,
dispatching or replying, the exception is caught at the loop boundary and
logged (the trace ends with the `logger.error` event), the loop performs
no backoff sleep at all, and it continues immediately with the next
iteration — it never terminates the process. -/
theorem exception_caught_logged_continues (env : Env) (rest : List Env)
    (step : Nat) (h : (runIteration env step).caught.isSome = true) :
    (∃ e, (runIteration env step).caught = some e ∧
      (runIteration env step).trace.getLast? = some (Event.logError e)) ∧
    countSleeps (runIteration env step).trace = 0 ∧
    runLoop (env :: rest) step
      = ((runIteration env step).trace
          ++ (runLoop rest (runIteration env step).step).1,
        (runLoop rest (runIteration env step).step).2) := by
  rcases (runIteration_shape env step).2 with hc | ⟨pre, e, st, heq, hpre⟩
  · rw [hc] at h
    simp at h
  · refine ⟨⟨e, ?_, ?_⟩, ?_, ?_⟩
    · rw [heq]
      rfl
    · rw [heq]
      simp [catchTrace]
    · rw [heq]
      simp [catchTrace, countSleeps, Event.isSleep] at hpre ⊢
      exact hpre
    · rcases hp : runLoop rest (runIteration env step).step with ⟨t, s⟩
      simp [runLoop, hp]

/-- C3 witness: the amended behaviour at a concrete iteration whose poll
raises "boom", followed by one quiet iteration. -/
theorem exception_caught_logged_continues_witness :
    (∃ e, (runIteration ⟨Except.ok (), Except.error "boom", Except.ok "x",
        none⟩ 0).caught = some e ∧
      (runIteration ⟨Except.ok (), Except.error "boom", Except.ok "x",
        none⟩ 0).trace.getLast? = some (Event.logError e)) ∧
    countSleeps (runIteration ⟨Except.ok (), Except.error "boom",
      Except.ok "x", none⟩ 0).trace = 0 ∧
    runLoop (⟨Except.ok (), Except.error "boom", Except.ok "x", none⟩
        :: [⟨Except.ok (), Except.ok ⟨some NO_NEW_MESSAGES, []⟩,
             Except.ok "x", none⟩]) 0
      = ((runIteration ⟨Except.ok (), Except.error "boom", Except.ok "x",
            none⟩ 0).trace
          ++ (runLoop [⟨Except.ok (), Except.ok ⟨some NO_NEW_MESSAGES, []⟩,
                Except.ok "x", none⟩]
              (runIteration ⟨Except.ok (), Except.error "boom", Except.ok "x",
                none⟩ 0).step).1,
        (runLoop [⟨Except.ok (), Except.ok ⟨some NO_NEW_MESSAGES, []⟩,
              Except.ok "x", none⟩]
            (runIteration ⟨Except.ok (), Except.error "boom", Except.ok "x",
              none⟩ 0).step).2) :=
  exception_caught_logged_continues
    ⟨Except.ok (), Except.error "boom", Except.ok "x", none⟩
    [⟨Except.ok (), Except.ok ⟨some NO_NEW_MESSAGES, []⟩, Except.ok "x", none⟩]
    0 rfl

/-- C8: the step counter starts at 0; every iteration leaves it
non-decreasing (so it is monotonically non-decreasing across any run of
the loop); a valid message whose dispatch returns increments it by
exactly one; and when dispatch raises (or is never reached) it is
unchanged. -/
theorem step_counter_behaviour :
    initialStep = 0 ∧
    (∀ env step, step ≤ (runIteration env step).step) ∧
    (∀ envs step, step ≤ (runLoop envs step).2) ∧
    (∀ (raw : Option String) (m : Message) (rest : List Message)
        (answer : String) (se : Option String) (step : Nat),
      isNoNewMessages raw = false →
      (truthy m.threadId && (truthy m.senderId && truthy m.content)) = true →
      (runIteration ⟨Except.ok (), Except.ok ⟨raw, m :: rest⟩,
        Except.ok answer, se⟩ step).step = step + 1) ∧
    (∀ env step e, env.dispatchR = Except.error e →
      (runIteration env step).step = step) := by
  have hmono : ∀ env step, step ≤ (runIteration env step).step := by
    intro env step
    rcases (runIteration_shape env step).1 with h | ⟨h, _⟩ <;> omega
  refine ⟨rfl, hmono, ?_, ?_, ?_⟩
  · intro envs
    induction envs with
    | nil => intro step; simp [runLoop]
    | cons env rest ih =>
      intro step
      rcases hp : runLoop rest (runIteration env step).step with ⟨t, s⟩
      have h2 := ih (runIteration env step).step
      rw [hp] at h2
      calc step ≤ (runIteration env step).step := hmono env step
        _ ≤ s := h2
        _ = (runLoop (env :: rest) step).2 := by simp [runLoop, hp]
  · intro raw m rest answer se step hraw hvalid
    have htid : truthy m.threadId = true := by
      cases h : truthy m.threadId <;> simp_all
    have hsc : truthy m.senderId = true ∧ truthy m.content = true := by
      simpa [htid] using hvalid
    cases se <;>
      simp [runIteration, hraw, htid, hsc.1, hsc.2, catchTrace]
  · intro env step e hd
    rcases (runIteration_shape env step).1 with h | ⟨_, a, ha⟩
    · exact h
    · rw [hd] at ha
      exact absurd ha (by simp)

/-- C8 witness: from step 5, an iteration whose poll raises keeps the
counter at 5; a valid dispatched message takes it from 5 to 6; a valid
message whose dispatch raises keeps it at 5. -/
theorem step_counter_behaviour_witness :
    initialStep = 0 ∧
    5 ≤ (runIteration ⟨Except.ok (), Except.error "boom", Except.ok "x",
      none⟩ 5).step ∧
    (runIteration ⟨Except.ok (),
      Except.ok ⟨none, [⟨some "t1", some "a1", some "q"⟩]⟩,
      Except.ok "ans", none⟩ 5).step = 6 ∧
    (runIteration ⟨Except.ok (),
      Except.ok ⟨none, [⟨some "t1", some "a1", some "q"⟩]⟩,
      Except.error "boom", none⟩ 5).step = 5 :=
  ⟨step_counter_behaviour.1,
   step_counter_behaviour.2.1 _ 5,
   step_counter_behaviour.2.2.2.1 none ⟨some "t1", some "a1", some "q"⟩ []
     "ans" none 5 rfl rfl,
   step_counter_behaviour.2.2.2.2
     ⟨Except.ok (), Except.ok ⟨none, [⟨some "t1", some "a1", some "q"⟩]⟩,
      Except.error "boom", none⟩ 5 "boom" rfl⟩

/-- Appending to the capacity-3 deque never yields more than 3 items. -/
theorem pushHistory_length_le (l : List String) (x : String) :
    (pushHistory l x).length ≤ 3 := by
  simp [pushHistory]
  omega

/-- C6: the history deque never exceeds length 3 after any sequence of
insertions starting from the empty history; inserting a 4th item evicts
exactly the oldest of the previous 3 and keeps the 3 most recent items in
insertion order; and up to 3 items are all retained in insertion
order. -/
theorem bounded_history_capacity :
    (∀ qs : List String, (qs.foldl pushHistory []).length ≤ 3) ∧
    (∀ a b c d : String, List.foldl pushHistory [] [a, b, c, d] = [b, c, d]) ∧
    (∀ a b c : String, List.foldl pushHistory [] [a, b, c] = [a, b, c]) := by
  refine ⟨?_, fun a b c d => rfl, fun a b c => rfl⟩
  have haux : ∀ (qs : List String) (l : List String), l.length ≤ 3 →
      (qs.foldl pushHistory l).length ≤ 3 := by
    intro qs
    induction qs with
    | nil => intro l hl; simpa using hl
    | cons q qs ih =>
      intro l hl
      exact ih (pushHistory l q) (pushHistory_length_le l q)
  intro qs
  exact haux qs [] (by simp)

/-- C7: in `call_coral_agent` the query is appended to the history iff
the engine invocation succeeds: on success the history gains exactly the
dispatched query (at the right of the deque), and when the engine raises
— or is never invoked because no valid input is derivable or the guard
fails — the state, history included, is left unchanged. -/
theorem history_append_iff_dispatch_success :
    (∀ (st : CMState) (inp : CoralInput)
        (engine : String → Except String (Option String)) (q : String)
        (o : Option String),
      st.coralAgentOk = true →
      coralAgentInput st.latest_transcript (inputTextOf inp) = some q →
      engine q = Except.ok o →
      (call_coral_agent st inp engine).2.history
        = pushHistory st.history q) ∧
    (∀ (st : CMState) (inp : CoralInput)
        (engine : String → Except String (Option String)) (q : String)
        (e : String),
      coralAgentInput st.latest_transcript (inputTextOf inp) = some q →
      engine q = Except.error e →
      (call_coral_agent st inp engine).2 = st) ∧
    (∀ (st : CMState) (inp : CoralInput)
        (engine : String → Except String (Option String)),
      coralAgentInput st.latest_transcript (inputTextOf inp) = none →
      (call_coral_agent st inp engine).2 = st) ∧
    (∀ (st : CMState) (inp : CoralInput)
        (engine : String → Except String (Option String)),
      st.coralAgentOk = false →
      (call_coral_agent st inp engine).2 = st) := by
  refine ⟨?_, ?_, ?_, ?_⟩
  · intro st inp engine q o hok hq he
    simp [call_coral_agent, hok, hq, he]
  · intro st inp engine q e hq he
    cases hok : st.coralAgentOk <;>
      simp [call_coral_agent, hok, hq, he]
  · intro st inp engine hq
    cases hok : st.coralAgentOk <;>
      simp [call_coral_agent, hok, hq]
  · intro st inp engine hok
    simp [call_coral_agent, hok]

/-- C7 witness: with an initialized agent and empty history, dispatching
"hi" with a succeeding engine appends "hi"; with a raising engine, or
with no valid input at all, the state is unchanged. -/
theorem history_append_iff_dispatch_success_witness :
    (call_coral_agent ⟨true, none, []⟩ (CoralInput.text "hi")
      (fun _ => Except.ok (some "done"))).2.history
      = pushHistory [] "hi" ∧
    (call_coral_agent ⟨true, none, ["old"]⟩ (CoralInput.text "hi")
      (fun _ => Except.error "down")).2 = ⟨true, none, ["old"]⟩ ∧
    (call_coral_agent ⟨true, none, ["old"]⟩ CoralInput.noArg
      (fun _ => Except.ok (some "done"))).2 = ⟨true, none, ["old"]⟩ ∧
    (call_coral_agent ⟨false, none, ["old"]⟩ (CoralInput.text "hi")
      (fun _ => Except.ok (some "done"))).2 = ⟨false, none, ["old"]⟩ :=
  ⟨history_append_iff_dispatch_success.1 ⟨true, none, []⟩
     (CoralInput.text "hi") (fun _ => Except.ok (some "done")) "hi"
     (some "done") rfl (by decide) rfl,
   history_append_iff_dispatch_success.2.1 ⟨true, none, ["old"]⟩
     (CoralInput.text "hi") (fun _ => Except.error "down") "hi" "down"
     (by decide) rfl,
   history_append_iff_dispatch_success.2.2.1 ⟨true, none, ["old"]⟩
     CoralInput.noArg (fun _ => Except.ok (some "done")) (by decide),
   history_append_iff_dispatch_success.2.2.2 ⟨false, none, ["old"]⟩
     (CoralInput.text "hi") (fun _ => Except.ok (some "done")) rfl⟩

/-- C9: the voice session deadline is 120 seconds; when the provider
reports no session end within it (the wait times out), the session ends
as `timedOut` and the explicit end-session command is issued at most
once; an operator interrupt ends the session (the handler issues the
end-session command once) and control returns to the caller instead of
the interrupt propagating as a fatal error — indeed no outcome issues
the command more than once or propagates an exception. -/
theorem voice_session_timeout_and_interrupt :
    VOICE_SESSION_TIMEOUT_SECONDS = 120 ∧
    (run_voice_session SessionWait.timedOutWait).reason = EndReason.timedOut ∧
    (run_voice_session SessionWait.timedOutWait).endSessionCalls ≤ 1 ∧
    (run_voice_session SessionWait.interrupted).reason
      = EndReason.interruptedEnd ∧
    (run_voice_session SessionWait.interrupted).endSessionCalls = 1 ∧
    (∀ w, (run_voice_session w).endSessionCalls ≤ 1 ∧
      (run_voice_session w).propagatesToCaller = false) := by
  refine ⟨rfl, rfl, by decide, rfl, rfl, ?_⟩
  intro w
  cases w <;> exact ⟨by simp [run_voice_session], rfl⟩

end Bravo
